import Mathlib

/-!
Verification of the Bang-Donation backend against its specification.

The development shallowly embeds the donation data model, the statistics
aggregation pipelines, the socket event handlers, the HTTP status-update
and creation handlers, and the store connection retry loop. Identifiers
are modelled as natural numbers, currency amounts as integers, and
timestamps as natural-number ticks. The persisted donation collection is
a list of records; aggregation pipelines are folds over that list in
store order.
-/

namespace BangDonation

/-- Donation status enum from the Donation schema. -/
inductive Status
  | pending
  | confirmed
  | completed
  | cancelled
deriving DecidableEq, Repr

/-- User role enum. -/
inductive Role
  | user
  | admin
deriving DecidableEq, Repr

/-- A persisted Donation document (fields relevant to the claims). -/
structure Donation where
  id : Nat
  user_id : Nat
  amount : Int
  status : Status
  is_anonymous : Bool
  message : Option String
  confirmed_at : Option Nat
  completed_at : Option Nat
deriving DecidableEq, Repr

/-- The match stage shared by the stats and leaderboard pipelines:
status in the list [confirmed, completed]. -/
def Status.isCounted : Status → Bool
  | Status.confirmed => true
  | Status.completed => true
  | _ => false

/-- Donations passing the match stage, in store order. -/
def matchedDonations (ds : List Donation) : List Donation :=
  ds.filter (fun d => d.status.isCounted)

/-- One step of the addToSet accumulator: insert if absent. -/
def addToSetStep (acc : List Nat) (u : Nat) : List Nat :=
  if u ∈ acc then acc else acc ++ [u]

/-- The addToSet accumulator over a list of user ids, in encounter order. -/
def addToSet (l : List Nat) : List Nat :=
  l.foldl addToSetStep []

/-- Result shape of GET /api/donations/stats. -/
structure StatsResult where
  total_raised : Int
  total_donations : Nat
  total_supporters : Nat
deriving DecidableEq, Repr

/-- GET /api/donations/stats: aggregate over matched donations; when the
match stage selects nothing the group stage yields no row and the handler
falls back to the all-zero default. -/
def getStats (ds : List Donation) : StatsResult :=
  let m := matchedDonations ds
  if m.isEmpty then ⟨0, 0, 0⟩
  else ⟨(m.map (fun d => d.amount)).sum, m.length,
        (addToSet (m.map (fun d => d.user_id))).length⟩

/-- Payload shape of the stats:update socket broadcast. -/
structure SocketStats where
  total_raised : Int
  total_supporters : Nat
deriving DecidableEq, Repr

/-- The stats:update payload computed inside the socket handlers: same
pipeline as GET /api/donations/stats without the donation count, with the
same zero fallback for an empty aggregate. -/
def socketStatsPayload (ds : List Donation) : SocketStats :=
  let m := matchedDonations ds
  if m.isEmpty then ⟨0, 0⟩
  else ⟨(m.map (fun d => d.amount)).sum,
        (addToSet (m.map (fun d => d.user_id))).length⟩

lemma addToSet_foldl_spec (l : List Nat) :
    ∀ acc : List Nat, acc.Nodup →
      (l.foldl addToSetStep acc).Nodup ∧
      (l.foldl addToSetStep acc).toFinset = acc.toFinset ∪ l.toFinset := by
  induction l with
  | nil =>
      intro acc h
      simp [h]
  | cons u l ih =>
      intro acc h
      rw [List.foldl_cons]
      by_cases hu : u ∈ acc
      · have hstep : addToSetStep acc u = acc := by simp [addToSetStep, hu]
        rw [hstep]
        obtain ⟨h1, h2⟩ := ih acc h
        refine ⟨h1, ?_⟩
        rw [h2]
        ext x
        simp only [Finset.mem_union, List.mem_toFinset, List.mem_cons]
        constructor
        · rintro (hx | hx)
          · exact Or.inl hx
          · exact Or.inr (Or.inr hx)
        · rintro (hx | hx | hx)
          · exact Or.inl hx
          · exact Or.inl (hx ▸ hu)
          · exact Or.inr hx
      · have hstep : addToSetStep acc u = acc ++ [u] := by simp [addToSetStep, hu]
        rw [hstep]
        have hnd : (acc ++ [u]).Nodup := by
          simp [List.nodup_append, h, hu]
        obtain ⟨h1, h2⟩ := ih (acc ++ [u]) hnd
        refine ⟨h1, ?_⟩
        rw [h2]
        ext x
        simp only [Finset.mem_union, List.mem_toFinset, List.mem_append,
          List.mem_singleton, List.mem_cons]
        tauto

/-- The length of the addToSet accumulator is the number of distinct values. -/
lemma addToSet_length (l : List Nat) : (addToSet l).length = l.toFinset.card := by
  obtain ⟨h1, h2⟩ := addToSet_foldl_spec l [] (by simp)
  unfold addToSet
  rw [← List.toFinset_card_of_nodup h1, h2]
  simp

/-- The match stage agrees with the predicate of being confirmed or completed. -/
lemma matchedDonations_eq_filter (ds : List Donation) :
    matchedDonations ds =
      ds.filter (fun d => decide (d.status = Status.confirmed ∨ d.status = Status.completed)) := by
  unfold matchedDonations
  apply List.filter_congr
  intro d _
  cases d.status <;> simp [Status.isCounted]

/-- Removing pending and cancelled donations does not change the matched set. -/
lemma matchedDonations_drop_uncounted (ds : List Donation) :
    matchedDonations
        (ds.filter (fun d => decide (d.status ≠ Status.pending ∧ d.status ≠ Status.cancelled))) =
      matchedDonations ds := by
  unfold matchedDonations
  rw [List.filter_filter]
  apply List.filter_congr
  intro d _
  cases d.status <;> simp [Status.isCounted]

/-- Total raised always equals the sum over the matched donations, the
zero fallback included. -/
lemma getStats_total_raised (ds : List Donation) :
    (getStats ds).total_raised = ((matchedDonations ds).map (fun d => d.amount)).sum := by
  unfold getStats
  by_cases h : (matchedDonations ds).isEmpty
  · have : matchedDonations ds = [] := by
      exact List.isEmpty_iff.mp h
    simp [this]
  · simp [h]

/-- Supporter count always equals the addToSet length, the zero fallback included. -/
lemma getStats_total_supporters (ds : List Donation) :
    (getStats ds).total_supporters =
      (addToSet ((matchedDonations ds).map (fun d => d.user_id))).length := by
  unfold getStats
  by_cases h : (matchedDonations ds).isEmpty
  · have : matchedDonations ds = [] := by
      exact List.isEmpty_iff.mp h
    simp [this, addToSet]
  · simp [h]

/-- C3: GET /api/donations/stats (and the stats:update broadcast payload)
report total_raised as the sum of amounts over donations with status
confirmed or completed (0 when there are none) and total_supporters as the
number of distinct user_id values among those donations; pending and
cancelled donations never contribute, so excluding them leaves the total
unchanged, hence never increases it. -/
theorem stats_totals_correct (ds : List Donation) :
    (getStats ds).total_raised =
      ((ds.filter (fun d =>
        decide (d.status = Status.confirmed ∨ d.status = Status.completed))).map
          (fun d => d.amount)).sum ∧
    (getStats ds).total_supporters =
      ((ds.filter (fun d =>
        decide (d.status = Status.confirmed ∨ d.status = Status.completed))).map
          (fun d => d.user_id)).toFinset.card ∧
    socketStatsPayload ds = ⟨(getStats ds).total_raised, (getStats ds).total_supporters⟩ ∧
    (getStats (ds.filter (fun d =>
        decide (d.status ≠ Status.pending ∧ d.status ≠ Status.cancelled)))).total_raised =
      (getStats ds).total_raised ∧
    (getStats (ds.filter (fun d =>
        decide (d.status ≠ Status.pending ∧ d.status ≠ Status.cancelled)))).total_raised ≤
      (getStats ds).total_raised := by
  refine ⟨?_, ?_, ?_, ?_, ?_⟩
  · rw [getStats_total_raised, matchedDonations_eq_filter]
  · rw [getStats_total_supporters, addToSet_length, matchedDonations_eq_filter]
  · unfold socketStatsPayload getStats
    by_cases h : (matchedDonations ds).isEmpty <;> simp [h]
  · rw [getStats_total_raised, getStats_total_raised, matchedDonations_drop_uncounted]
  · rw [getStats_total_raised, getStats_total_raised, matchedDonations_drop_uncounted]

/-! ## Leaderboard: GET /api/donations/top-supporters -/

/-- A row produced by the group stage of the leaderboard pipeline. -/
structure Group where
  user_id : Nat
  total_amount : Int
  is_anonymous : Bool
deriving DecidableEq, Repr

/-- One step of the group stage: fold a donation into the per-user rows.
The is_anonymous field uses the first accumulator, so it is the flag of
the first donation seen for that user; later donations only add to the sum. -/
def addToGroups (gs : List Group) (d : Donation) : List Group :=
  if gs.any (fun g => g.user_id == d.user_id) then
    gs.map (fun g =>
      if g.user_id == d.user_id then
        { g with total_amount := g.total_amount + d.amount }
      else g)
  else gs ++ [⟨d.user_id, d.amount, d.is_anonymous⟩]

/-- The group stage over the matched donations, in store order. -/
def groupDonations (ds : List Donation) : List Group :=
  (matchedDonations ds).foldl addToGroups []

/-- Stable insertion for the sort stage (total_amount descending). -/
def insertByAmountDesc (g : Group) : List Group → List Group
  | [] => [g]
  | h :: t =>
    if h.total_amount < g.total_amount then g :: h :: t
    else h :: insertByAmountDesc g t

/-- The sort stage: total_amount descending, stable. -/
def sortByAmountDesc (gs : List Group) : List Group :=
  gs.foldr insertByAmountDesc []

/-- An entry of the formatted top-supporters response. -/
structure SupporterEntry where
  user_id : Nat
  full_name : String
  total_amount : Int
  is_anonymous : Bool
deriving DecidableEq, Repr

/-- The rendered name: the placeholder when the group flag is set, else the
looked-up user name, falling back to the placeholder when the lookup found
nothing or the stored name is the empty string (falsy in the source). -/
def renderName (anon : Bool) (lookedUp : Option String) : String :=
  if anon then "Anonymous"
  else
    match lookedUp with
    | none => "Anonymous"
    | some s => if s = "" then "Anonymous" else s

/-- Format one group row: lookup stage against the users collection
(pairs of user id and full name) followed by the response mapping. -/
def formatEntry (users : List (Nat × String)) (g : Group) : SupporterEntry :=
  { user_id := g.user_id
    full_name := renderName g.is_anonymous
      ((users.find? (fun u => u.1 == g.user_id)).map (fun u => u.2))
    total_amount := g.total_amount
    is_anonymous := g.is_anonymous }

/-- GET /api/donations/top-supporters: match, group, sort, skip, limit,
lookup, format. The page and limit values arrive validated and defaulted. -/
def topSupporters (ds : List Donation) (users : List (Nat × String))
    (page limit : Nat) : List SupporterEntry :=
  let skip := (page - 1) * limit
  (((sortByAmountDesc (groupDonations ds)).drop skip).take limit).map (formatEntry users)

lemma mem_insertByAmountDesc {a g : Group} :
    ∀ l : List Group, a ∈ insertByAmountDesc g l → a = g ∨ a ∈ l := by
  intro l
  induction l with
  | nil => simp [insertByAmountDesc]
  | cons h t ih =>
      unfold insertByAmountDesc
      by_cases hc : h.total_amount < g.total_amount
      · simp only [if_pos hc, List.mem_cons]
        rintro (rfl | rfl | hm) <;> simp_all
      · simp only [if_neg hc, List.mem_cons]
        rintro (rfl | hm)
        · simp
        · rcases ih hm with h1 | h1 <;> simp_all

lemma mem_sortByAmountDesc {a : Group} :
    ∀ l : List Group, a ∈ sortByAmountDesc l → a ∈ l := by
  intro l
  induction l with
  | nil => simp [sortByAmountDesc]
  | cons h t ih =>
      intro hm
      have : a ∈ insertByAmountDesc h (sortByAmountDesc t) := hm
      rcases mem_insertByAmountDesc _ this with h1 | h1
      · simp [h1]
      · exact List.mem_cons_of_mem _ (ih h1)

/-- Each group row carries the user id and anonymity flag of one of the
donations folded into it. -/
lemma addToGroups_pairs {g : Group} {gs : List Group} {d : Donation}
    (h : g ∈ addToGroups gs d) :
    (∃ g0 ∈ gs, g0.user_id = g.user_id ∧ g0.is_anonymous = g.is_anonymous) ∨
    (d.user_id = g.user_id ∧ d.is_anonymous = g.is_anonymous) := by
  unfold addToGroups at h
  by_cases hc : gs.any (fun g => g.user_id == d.user_id)
  · rw [if_pos hc] at h
    rcases List.mem_map.mp h with ⟨g0, hg0, hge⟩
    left
    refine ⟨g0, hg0, ?_⟩
    by_cases he : g0.user_id == d.user_id
    · rw [if_pos he] at hge
      cases hge
      exact ⟨rfl, rfl⟩
    · rw [if_neg he] at hge
      cases hge
      exact ⟨rfl, rfl⟩
  · rw [if_neg hc] at h
    rcases List.mem_append.mp h with h1 | h1
    · left
      exact ⟨g, h1, rfl, rfl⟩
    · right
      rcases List.mem_singleton.mp h1 with rfl
      exact ⟨rfl, rfl⟩

lemma foldl_addToGroups_pairs {g : Group} :
    ∀ (l : List Donation) (gs : List Group), g ∈ l.foldl addToGroups gs →
      (∃ g0 ∈ gs, g0.user_id = g.user_id ∧ g0.is_anonymous = g.is_anonymous) ∨
      (∃ d ∈ l, d.user_id = g.user_id ∧ d.is_anonymous = g.is_anonymous) := by
  intro l
  induction l with
  | nil =>
      intro gs h
      left
      exact ⟨g, h, rfl, rfl⟩
  | cons d t ih =>
      intro gs h
      rw [List.foldl_cons] at h
      rcases ih (addToGroups gs d) h with ⟨g0, hg0, he⟩ | ⟨d0, hd0, he⟩
      · rcases addToGroups_pairs hg0 with ⟨g1, hg1, he1⟩ | he1
        · left
          exact ⟨g1, hg1, he1.1.trans he.1, he1.2.trans he.2⟩
        · right
          exact ⟨d, List.mem_cons_self d t, he1.1.trans he.1, he1.2.trans he.2⟩
      · right
        exact ⟨d0, List.mem_cons_of_mem _ hd0, he⟩

/-- Each group row of the leaderboard pipeline takes its user id and
anonymity flag from one of the matched donations of that donor. -/
lemma groupDonations_pairs {g : Group} {ds : List Donation}
    (h : g ∈ groupDonations ds) :
    ∃ d ∈ matchedDonations ds, d.user_id = g.user_id ∧ d.is_anonymous = g.is_anonymous := by
  rcases foldl_addToGroups_pairs (matchedDonations ds) [] h with ⟨g0, hg0, _⟩ | hd
  · simp at hg0
  · exact hd

/-- C4 counterexample: a donor with a non-anonymous first matched donation
and an anonymous second one is rendered with the real name. Donor 7 has
donations with flags false then true; the leaderboard entry shows Alice,
not the placeholder, although one of the donations carries the flag. -/
theorem top_supporters_mixed_flags_counterexample :
    topSupporters
        [⟨1, 7, 500, Status.confirmed, false, none, none, none⟩,
         ⟨2, 7, 700, Status.confirmed, true, none, none, none⟩]
        [(7, "Alice")] 1 10 =
      [⟨7, "Alice", 1200, false⟩] ∧
    (⟨2, 7, 700, Status.confirmed, true, none, none, none⟩ : Donation).is_anonymous = true ∧
    "Alice" ≠ "Anonymous" := by
  refine ⟨?_, rfl, ?_⟩ <;> decide

/-- C4 amended: every top-supporters entry whose anonymity flag is set
renders the placeholder name instead of the real name, for every page and
limit; the entry takes its anonymity flag from one of the matched
donations of that donor (the first in store order), not from all of them,
so a donor with mixed flags may be rendered with the real name. -/
theorem top_supporters_anonymous_placeholder
    (ds : List Donation) (users : List (Nat × String)) (page limit : Nat)
    (e : SupporterEntry) (he : e ∈ topSupporters ds users page limit) :
    (e.is_anonymous = true → e.full_name = "Anonymous") ∧
    ∃ d ∈ matchedDonations ds, d.user_id = e.user_id ∧ d.is_anonymous = e.is_anonymous := by
  unfold topSupporters at he
  rcases List.mem_map.mp he with ⟨g, hg, rfl⟩
  have hgs : g ∈ sortByAmountDesc (groupDonations ds) :=
    List.drop_subset _ _ (List.take_subset _ _ hg)
  have hgd : g ∈ groupDonations ds := mem_sortByAmountDesc _ hgs
  constructor
  · intro ha
    have hga : g.is_anonymous = true := ha
    simp [formatEntry, renderName, hga]
  · rcases groupDonations_pairs hgd with ⟨d, hd, h1, h2⟩
    exact ⟨d, hd, h1, h2⟩

/-- Witness for the amended C4 theorem at a concrete anonymous donor. -/
theorem top_supporters_anonymous_placeholder_witness :
    (⟨7, "Anonymous", 500, true⟩ : SupporterEntry) ∈
      topSupporters [⟨1, 7, 500, Status.confirmed, true, none, none, none⟩]
        [(7, "Alice")] 1 10 ∧
    ((⟨7, "Anonymous", 500, true⟩ : SupporterEntry).is_anonymous = true →
      (⟨7, "Anonymous", 500, true⟩ : SupporterEntry).full_name = "Anonymous") ∧
    ∃ d ∈ matchedDonations [⟨1, 7, 500, Status.confirmed, true, none, none, none⟩],
      d.user_id = (⟨7, "Anonymous", 500, true⟩ : SupporterEntry).user_id ∧
      d.is_anonymous = (⟨7, "Anonymous", 500, true⟩ : SupporterEntry).is_anonymous := by
  refine ⟨by decide, ?_⟩
  exact top_supporters_anonymous_placeholder
    [⟨1, 7, 500, Status.confirmed, true, none, none, none⟩] [(7, "Alice")] 1 10
    ⟨7, "Anonymous", 500, true⟩ (by decide)

/-! ## Socket layer: setupSocketHandlers -/

/-- Destination of an emitted socket event. -/
inductive EmitTarget
  | toSelf
  | toRoom (room : String)
  | broadcast
deriving DecidableEq, Repr

/-- An emitted socket event: destination and event name. -/
structure Emit where
  target : EmitTarget
  event : String
deriving DecidableEq, Repr

/-- An authenticated socket connection: bound user id and role. -/
structure SocketConn where
  userId : Nat
  role : Role
deriving DecidableEq, Repr

/-- The donation:create event payload; fields absent from the payload are none. -/
structure CreatePayload where
  user_id : Option Nat
  amount : Option Int
  status : Option Status
  message : Option String
  is_anonymous : Option Bool
deriving DecidableEq, Repr

/-- The document handed to Donation.create. -/
structure DonationDoc where
  user_id : Option Nat
  amount : Option Int
  status : Option Status
  message : Option String
  is_anonymous : Option Bool
deriving DecidableEq, Repr

/-- The object literal built by the donation:create handler: first the
bound user id, then the spread payload, then the pending status. Later
keys overwrite earlier ones, so a user_id present in the payload wins over
the bound identity, while the status key is always overwritten with
pending because it comes after the spread. -/
def socketCreateDoc (boundUserId : Nat) (data : CreatePayload) : DonationDoc :=
  { user_id := some (data.user_id.getD boundUserId)
    amount := data.amount
    status := some Status.pending
    message := data.message
    is_anonymous := data.is_anonymous }

/-- Donation.create with the schema validation of the Donation model:
user_id required, amount required with lower bound 500, message at most
500 characters, status defaulting to pending, is_anonymous defaulting to
false, timestamps unset at creation. -/
def donationCreate (doc : DonationDoc) (newId : Nat) : Except String Donation :=
  match doc.user_id with
  | none => Except.error "User ID is required"
  | some uid =>
    match doc.amount with
    | none => Except.error "Amount is required"
    | some a =>
      if a < 500 then Except.error "Minimum donation amount is 500"
      else if 500 < (doc.message.getD "").length then
        Except.error "Message cannot exceed 500 characters"
      else Except.ok
        { id := newId
          user_id := uid
          amount := a
          status := doc.status.getD Status.pending
          is_anonymous := doc.is_anonymous.getD false
          message := doc.message
          confirmed_at := none
          completed_at := none }

/-- The donation:create socket handler: on successful creation append the
record and emit the acknowledgment to the submitter, the new-donation
notification to the admin room, and the stats broadcast to everyone; on
failure emit a scoped error to the submitter only and leave the store
unchanged. -/
def handleDonationCreate (conn : SocketConn) (data : CreatePayload)
    (db : List Donation) (newId : Nat) : List Donation × List Emit :=
  match donationCreate (socketCreateDoc conn.userId data) newId with
  | Except.ok d =>
      (db ++ [d],
       [⟨EmitTarget.toSelf, "donation:created"⟩,
        ⟨EmitTarget.toRoom "admin", "donation:new"⟩,
        ⟨EmitTarget.broadcast, "stats:update"⟩])
  | Except.error _ => (db, [⟨EmitTarget.toSelf, "error"⟩])

/-- findByIdAndUpdate with a patch containing only the status field:
locate the document by id, overwrite its status, return the new document. -/
def findByIdAndUpdateStatus (db : List Donation) (id : Nat) (st : Status) :
    List Donation × Option Donation :=
  match db.find? (fun d => d.id == id) with
  | none => (db, none)
  | some d =>
    let d2 := { d with status := st }
    (db.map (fun x => if x.id == id then d2 else x), some d2)

/-- The donation:update-status socket handler: a non-admin connection gets
a scoped error and nothing else happens; an admin connection patches only
the status field, then notifies the owner room and broadcasts stats when
the donation was found. -/
def handleUpdateStatus (conn : SocketConn) (donationId : Nat) (newStatus : Status)
    (db : List Donation) : List Donation × List Emit :=
  if conn.role ≠ Role.admin then (db, [⟨EmitTarget.toSelf, "error"⟩])
  else
    match findByIdAndUpdateStatus db donationId newStatus with
    | (db2, some d) =>
        (db2,
         [⟨EmitTarget.toRoom ("user:" ++ toString d.user_id), "donation:status-updated"⟩,
          ⟨EmitTarget.broadcast, "stats:update"⟩])
    | (db2, none) => (db2, [])

/-- C1: evaluation of the donation:create handler at the failing input.
A connection bound to user 1 submits a payload carrying user_id 2: the
persisted donation is owned by user 2, not by the bound identity, because
the payload spread overwrites the user_id key placed before it. -/
theorem socket_create_owner_overridden :
    (handleDonationCreate ⟨1, Role.user⟩ ⟨some 2, some 1000, none, none, none⟩ [] 0).1 =
      [⟨0, 2, 1000, Status.pending, false, none, none, none⟩] ∧
    (2 : Nat) ≠ (⟨1, Role.user⟩ : SocketConn).userId := by
  refine ⟨?_, ?_⟩ <;> decide

/-- Successful creation yields the default pending status whenever the
document carries no status key, and the documents built by the socket
handler always carry the pending status key. -/
lemma donationCreate_status {doc : DonationDoc} {newId : Nat} {d : Donation}
    (h : donationCreate doc newId = Except.ok d) :
    d.status = doc.status.getD Status.pending := by
  unfold donationCreate at h
  split at h
  · cases h
  · split at h
    · cases h
    · split at h
      · cases h
      · split at h
        · cases h
        · cases h
          rfl

/-- C10: every donation present after a donation:create event either was
already stored or has status pending, for every payload: a status field in
the payload is overwritten by the literal pending status placed after the
spread and never persisted. -/
theorem socket_create_status_always_pending
    (conn : SocketConn) (data : CreatePayload) (db : List Donation) (newId : Nat)
    (d : Donation) (hd : d ∈ (handleDonationCreate conn data db newId).1) :
    d ∈ db ∨ d.status = Status.pending := by
  unfold handleDonationCreate at hd
  cases hc : donationCreate (socketCreateDoc conn.userId data) newId with
  | ok e =>
      rw [hc] at hd
      rcases List.mem_append.mp hd with h1 | h1
      · exact Or.inl h1
      · rcases List.mem_singleton.mp h1 with rfl
        right
        rw [donationCreate_status hc]
        rfl
  | error msg =>
      rw [hc] at hd
      exact Or.inl hd

/-- Witness for C10 at a concrete payload that tries to submit a
confirmed status. -/
theorem socket_create_status_always_pending_witness :
    (⟨0, 1, 600, Status.pending, false, none, none, none⟩ : Donation) ∈
      (handleDonationCreate ⟨1, Role.user⟩
        ⟨none, some 600, some Status.confirmed, none, none⟩ [] 0).1 ∧
    ((⟨0, 1, 600, Status.pending, false, none, none, none⟩ : Donation) ∈ ([] : List Donation) ∨
      (⟨0, 1, 600, Status.pending, false, none, none, none⟩ : Donation).status = Status.pending) := by
  refine ⟨by decide, ?_⟩
  exact socket_create_status_always_pending ⟨1, Role.user⟩
    ⟨none, some 600, some Status.confirmed, none, none⟩ [] 0
    ⟨0, 1, 600, Status.pending, false, none, none, none⟩ (by decide)

/-- C7: a donation:update-status event from a connection whose bound
identity is not an admin produces exactly one error event scoped to that
connection, leaves every stored donation unchanged, and broadcasts
nothing. -/
theorem socket_update_status_non_admin_scoped_error
    (conn : SocketConn) (donationId : Nat) (newStatus : Status) (db : List Donation)
    (h : conn.role ≠ Role.admin) :
    handleUpdateStatus conn donationId newStatus db =
      (db, [⟨EmitTarget.toSelf, "error"⟩]) := by
  unfold handleUpdateStatus
  rw [if_pos h]

/-- Witness for C7 at a concrete non-admin connection. -/
theorem socket_update_status_non_admin_scoped_error_witness :
    (⟨2, Role.user⟩ : SocketConn).role ≠ Role.admin ∧
    handleUpdateStatus ⟨2, Role.user⟩ 5 Status.confirmed
        [⟨5, 7, 500, Status.pending, false, none, none, none⟩] =
      ([⟨5, 7, 500, Status.pending, false, none, none, none⟩],
       [⟨EmitTarget.toSelf, "error"⟩]) :=
  ⟨by decide,
   socket_update_status_non_admin_scoped_error ⟨2, Role.user⟩ 5 Status.confirmed
     [⟨5, 7, 500, Status.pending, false, none, none, none⟩] (by decide)⟩

/-- C2 counterexample: an admin connection moves a pending donation into
confirmed through the socket handler; the stored donation ends with status
confirmed but confirmed_at still unset, because the handler patches only
the status field. -/
theorem socket_update_status_no_timestamp_counterexample :
    (handleUpdateStatus ⟨1, Role.admin⟩ 5 Status.confirmed
        [⟨5, 7, 500, Status.pending, false, none, none, none⟩]).1 =
      [⟨5, 7, 500, Status.confirmed, false, none, none, none⟩] ∧
    (⟨5, 7, 500, Status.confirmed, false, none, none, none⟩ : Donation).confirmed_at = none := by
  refine ⟨?_, rfl⟩
  decide

/-- C2 amended: the donation:update-status socket handler changes at most
the status field of the target donation; it never sets confirmed_at or
completed_at, not even on the first transition into confirmed or
completed — those timestamps are written only by the HTTP status-update
endpoints. -/
theorem socket_update_status_changes_only_status
    (conn : SocketConn) (donationId : Nat) (newStatus : Status) (db : List Donation)
    (d2 : Donation) (hd : d2 ∈ (handleUpdateStatus conn donationId newStatus db).1) :
    ∃ d ∈ db, (d2 = d ∨ d2 = { d with status := newStatus }) ∧
      d2.confirmed_at = d.confirmed_at ∧ d2.completed_at = d.completed_at := by
  unfold handleUpdateStatus at hd
  by_cases hrole : conn.role ≠ Role.admin
  · rw [if_pos hrole] at hd
    exact ⟨d2, hd, Or.inl rfl, rfl, rfl⟩
  · rw [if_neg hrole] at hd
    unfold findByIdAndUpdateStatus at hd
    cases hf : db.find? (fun d => d.id == donationId) with
    | none =>
        rw [hf] at hd
        exact ⟨d2, hd, Or.inl rfl, rfl, rfl⟩
    | some d =>
        rw [hf] at hd
        simp only at hd
        rcases List.mem_map.mp hd with ⟨x, hx, hxe⟩
        by_cases hxi : x.id == donationId
        · rw [if_pos hxi] at hxe
          refine ⟨d, List.mem_of_find?_eq_some hf, Or.inr hxe.symm, ?_, ?_⟩ <;>
            rw [← hxe]
        · rw [if_neg hxi] at hxe
          exact ⟨x, hx, Or.inl hxe.symm, hxe ▸ rfl, hxe ▸ rfl⟩

/-- Witness for the amended C2 theorem at a concrete admin update. -/
theorem socket_update_status_changes_only_status_witness :
    (⟨5, 7, 500, Status.confirmed, false, none, none, none⟩ : Donation) ∈
      (handleUpdateStatus ⟨1, Role.admin⟩ 5 Status.confirmed
        [⟨5, 7, 500, Status.pending, false, none, none, none⟩]).1 ∧
    ∃ d ∈ [(⟨5, 7, 500, Status.pending, false, none, none, none⟩ : Donation)],
      ((⟨5, 7, 500, Status.confirmed, false, none, none, none⟩ : Donation) = d ∨
        (⟨5, 7, 500, Status.confirmed, false, none, none, none⟩ : Donation) =
          { d with status := Status.confirmed }) ∧
      (⟨5, 7, 500, Status.confirmed, false, none, none, none⟩ : Donation).confirmed_at =
        d.confirmed_at ∧
      (⟨5, 7, 500, Status.confirmed, false, none, none, none⟩ : Donation).completed_at =
        d.completed_at := by
  refine ⟨by decide, ?_⟩
  exact socket_update_status_changes_only_status ⟨1, Role.admin⟩ 5 Status.confirmed
    [⟨5, 7, 500, Status.pending, false, none, none, none⟩]
    ⟨5, 7, 500, Status.confirmed, false, none, none, none⟩ (by decide)

/-! ## HTTP status updates: PATCH /api/donations/:id/status and
PATCH /api/admin/donations/:id/status -/

/-- The first guarded write of the handler body: set confirmed_at only
when transitioning into confirmed with the timestamp still unset. -/
def setConfirmedAt (d : Donation) (st : Status) (now : Nat) : Donation :=
  if st = Status.confirmed ∧ d.confirmed_at = none then
    { d with confirmed_at := some now }
  else d

/-- The second guarded write of the handler body: set completed_at only
when transitioning into completed with the timestamp still unset. -/
def setCompletedAt (d : Donation) (st : Status) (now : Nat) : Donation :=
  if st = Status.completed ∧ d.completed_at = none then
    { d with completed_at := some now }
  else d

/-- The shared body of both HTTP status-update handlers: overwrite the
status, then run the two guarded timestamp writes in order. -/
def applyStatusTimestamps (d : Donation) (st : Status) (now : Nat) : Donation :=
  setCompletedAt (setConfirmedAt { d with status := st } st now) st now

/-- PATCH /api/donations/:id/status: inline admin check, 404 when the
donation is absent, otherwise patch and save. Returns the new collection
and the HTTP status code. -/
def patchDonationStatus (requesterRole : Role) (db : List Donation) (id : Nat)
    (st : Status) (now : Nat) : List Donation × Nat :=
  if requesterRole ≠ Role.admin then (db, 403)
  else
    match db.find? (fun d => d.id == id) with
    | none => (db, 404)
    | some d =>
      let d2 := applyStatusTimestamps d st now
      (db.map (fun x => if x.id == id then d2 else x), 200)

/-- PATCH /api/admin/donations/:id/status handler body: identical patch
logic; the admin-role gate lives in router-level middleware upstream of it. -/
def adminPatchDonationStatus (db : List Donation) (id : Nat) (st : Status)
    (now : Nat) : List Donation × Nat :=
  match db.find? (fun d => d.id == id) with
  | none => (db, 404)
  | some d =>
    let d2 := applyStatusTimestamps d st now
    (db.map (fun x => if x.id == id then d2 else x), 200)

/-- One HTTP status-update operation, through either endpoint. -/
inductive StatusOp
  | viaDonations (role : Role) (st : Status) (now : Nat)
  | viaAdmin (st : Status) (now : Nat)
deriving DecidableEq, Repr

/-- The collection left behind by one HTTP status-update operation. -/
def applyStatusOp (db : List Donation) (id : Nat) : StatusOp → List Donation
  | StatusOp.viaDonations role st now => (patchDonationStatus role db id st now).1
  | StatusOp.viaAdmin st now => (adminPatchDonationStatus db id st now).1

/-- Run a sequence of HTTP status-update operations against one target id. -/
def runStatusOps (db : List Donation) (id : Nat) : List StatusOp → List Donation
  | [] => db
  | op :: rest => runStatusOps (applyStatusOp db id op) id rest

/-- An already-set confirmed_at survives the first guarded write. -/
lemma setConfirmedAt_keeps {d : Donation} (st : Status) (now t : Nat)
    (h : d.confirmed_at = some t) :
    (setConfirmedAt d st now).confirmed_at = some t := by
  unfold setConfirmedAt
  split
  · next hc => rw [h] at hc; cases hc.2
  · exact h

/-- The first guarded write never touches completed_at. -/
lemma setConfirmedAt_completed_at (d : Donation) (st : Status) (now : Nat) :
    (setConfirmedAt d st now).completed_at = d.completed_at := by
  unfold setConfirmedAt
  split <;> rfl

/-- An already-set completed_at survives the second guarded write. -/
lemma setCompletedAt_keeps {d : Donation} (st : Status) (now t : Nat)
    (h : d.completed_at = some t) :
    (setCompletedAt d st now).completed_at = some t := by
  unfold setCompletedAt
  split
  · next hc => rw [h] at hc; cases hc.2
  · exact h

/-- The second guarded write never touches confirmed_at. -/
lemma setCompletedAt_confirmed_at (d : Donation) (st : Status) (now : Nat) :
    (setCompletedAt d st now).confirmed_at = d.confirmed_at := by
  unfold setCompletedAt
  split <;> rfl

/-- An already-set confirmed_at survives one patch unchanged. -/
lemma applyStatusTimestamps_confirmed_at {d : Donation} (st : Status) (now t : Nat)
    (h : d.confirmed_at = some t) :
    (applyStatusTimestamps d st now).confirmed_at = some t := by
  unfold applyStatusTimestamps
  rw [setCompletedAt_confirmed_at]
  exact setConfirmedAt_keeps st now t h

/-- An already-set completed_at survives one patch unchanged. -/
lemma applyStatusTimestamps_completed_at {d : Donation} (st : Status) (now t : Nat)
    (h : d.completed_at = some t) :
    (applyStatusTimestamps d st now).completed_at = some t := by
  unfold applyStatusTimestamps
  apply setCompletedAt_keeps
  rw [setConfirmedAt_completed_at]
  exact h

/-- A patch never changes the document id. -/
lemma applyStatusTimestamps_id (d : Donation) (st : Status) (now : Nat) :
    (applyStatusTimestamps d st now).id = d.id := by
  unfold applyStatusTimestamps setCompletedAt setConfirmedAt
  split <;> split <;> rfl

/-- The once-set timestamps are preserved by the admin endpoint body,
element by element. -/
lemma adminPatch_preserves (db : List Donation) (id : Nat) (st : Status) (now : Nat) :
    ∀ d2 ∈ (adminPatchDonationStatus db id st now).1,
      ∃ d ∈ db, d.id = d2.id ∧
        (∀ t, d.confirmed_at = some t → d2.confirmed_at = some t) ∧
        (∀ t, d.completed_at = some t → d2.completed_at = some t) := by
  intro d2 hd2
  unfold adminPatchDonationStatus at hd2
  cases hf : db.find? (fun d => d.id == id) with
  | none =>
      rw [hf] at hd2
      exact ⟨d2, hd2, rfl, fun t ht => ht, fun t ht => ht⟩
  | some d =>
      rw [hf] at hd2
      simp only at hd2
      rcases List.mem_map.mp hd2 with ⟨x, hx, hxe⟩
      by_cases hxi : x.id == id
      · rw [if_pos hxi] at hxe
        subst hxe
        have hp := List.find?_some hf
        have hdi : d.id = id := eq_of_beq hp
        refine ⟨d, List.mem_of_find?_eq_some hf, ?_, ?_, ?_⟩
        · rw [applyStatusTimestamps_id]
        · exact fun t ht => applyStatusTimestamps_confirmed_at st now t ht
        · exact fun t ht => applyStatusTimestamps_completed_at st now t ht
      · rw [if_neg hxi] at hxe
        subst hxe
        exact ⟨x, hx, rfl, fun t ht => ht, fun t ht => ht⟩

/-- The two endpoint bodies coincide once the inline role gate passes. -/
lemma patchDonationStatus_eq (role : Role) (db : List Donation) (id : Nat)
    (st : Status) (now : Nat) :
    patchDonationStatus role db id st now =
      if role ≠ Role.admin then (db, 403) else adminPatchDonationStatus db id st now := rfl

/-- The once-set timestamps are preserved from collection to collection by
one operation of either endpoint, element by element. -/
lemma statusOp_step_preserves (db : List Donation) (id : Nat) (op : StatusOp) :
    ∀ d2 ∈ applyStatusOp db id op,
      ∃ d ∈ db, d.id = d2.id ∧
        (∀ t, d.confirmed_at = some t → d2.confirmed_at = some t) ∧
        (∀ t, d.completed_at = some t → d2.completed_at = some t) := by
  cases op with
  | viaDonations role st now =>
      intro d2 hd2
      simp only [applyStatusOp] at hd2
      rw [patchDonationStatus_eq] at hd2
      by_cases hrole : role ≠ Role.admin
      · rw [if_pos hrole] at hd2
        exact ⟨d2, hd2, rfl, fun t ht => ht, fun t ht => ht⟩
      · rw [if_neg hrole] at hd2
        exact adminPatch_preserves db id st now d2 hd2
  | viaAdmin st now =>
      intro d2 hd2
      exact adminPatch_preserves db id st now d2 hd2

/-- C5: over every sequence of HTTP status-update operations through
either endpoint, every resulting donation descends from a stored donation
with the same id whose already-set confirmed_at and completed_at values it
keeps: a transition into confirmed or completed with the timestamp already
set leaves that timestamp unchanged, so each timestamp is written at most
once. -/
theorem http_status_timestamps_set_at_most_once
    (ops : List StatusOp) (db : List Donation) (id : Nat)
    (d2 : Donation) (hd2 : d2 ∈ runStatusOps db id ops) :
    ∃ d ∈ db, d.id = d2.id ∧
      (∀ t, d.confirmed_at = some t → d2.confirmed_at = some t) ∧
      (∀ t, d.completed_at = some t → d2.completed_at = some t) := by
  induction ops generalizing db with
  | nil =>
      exact ⟨d2, hd2, rfl, fun t ht => ht, fun t ht => ht⟩
  | cons op rest ih =>
      unfold runStatusOps at hd2
      rcases ih _ hd2 with ⟨dmid, hmid, hid, hc, hp⟩
      rcases statusOp_step_preserves db id op dmid hmid with ⟨d0, hd0, hid0, hc0, hp0⟩
      exact ⟨d0, hd0, hid0.trans hid,
        fun t ht => hc t (hc0 t ht), fun t ht => hp t (hp0 t ht)⟩

/-- Witness for C5: a donation already confirmed at tick 5 is patched into
confirmed again at tick 99 through both endpoints; confirmed_at stays 5. -/
theorem http_status_timestamps_set_at_most_once_witness :
    (⟨1, 7, 500, Status.confirmed, false, none, some 5, none⟩ : Donation) ∈
      runStatusOps [⟨1, 7, 500, Status.confirmed, false, none, some 5, none⟩] 1
        [StatusOp.viaAdmin Status.confirmed 99,
         StatusOp.viaDonations Role.admin Status.confirmed 99] ∧
    ∃ d ∈ [(⟨1, 7, 500, Status.confirmed, false, none, some 5, none⟩ : Donation)],
      d.id = (⟨1, 7, 500, Status.confirmed, false, none, some 5, none⟩ : Donation).id ∧
      (∀ t, d.confirmed_at = some t →
        (⟨1, 7, 500, Status.confirmed, false, none, some 5, none⟩ : Donation).confirmed_at =
          some t) ∧
      (∀ t, d.completed_at = some t →
        (⟨1, 7, 500, Status.confirmed, false, none, some 5, none⟩ : Donation).completed_at =
          some t) := by
  refine ⟨by decide, ?_⟩
  exact http_status_timestamps_set_at_most_once
    [StatusOp.viaAdmin Status.confirmed 99,
     StatusOp.viaDonations Role.admin Status.confirmed 99]
    [⟨1, 7, 500, Status.confirmed, false, none, some 5, none⟩] 1
    ⟨1, 7, 500, Status.confirmed, false, none, some 5, none⟩ (by decide)

/-! ## HTTP donation creation: POST /api/donations -/

/-- The request body of POST /api/donations (fields relevant to the
claims); a missing or non-numeric amount is none. -/
structure CreateBody where
  amount : Option Int
  message : Option String
  is_anonymous : Option Bool
deriving DecidableEq, Repr

/-- The express-validator chain of the route, returning the first failing
message: the amount validator requires a number of at least 500 and runs
first; the optional message validator bounds the length at 500. -/
def validateCreateBody (b : CreateBody) : Option String :=
  match b.amount with
  | none => some "Minimum donation amount is $500"
  | some a =>
    if a < 500 then some "Minimum donation amount is $500"
    else
      match b.message with
      | none => none
      | some m => if 500 < m.length then some "Message cannot exceed 500 characters" else none

/-- POST /api/donations for an authenticated user: respond 400 and touch
nothing when validation fails; otherwise create the donation owned by the
authenticated user with status pending and respond 201; a schema-level
rejection maps to the 500 catch-all. Returns the new collection and the
HTTP status code. -/
def postDonation (authUserId : Nat) (b : CreateBody) (db : List Donation)
    (newId : Nat) : List Donation × Nat :=
  match validateCreateBody b with
  | some _ => (db, 400)
  | none =>
    match donationCreate
        ⟨some authUserId, b.amount, some Status.pending, b.message, b.is_anonymous⟩ newId with
    | Except.ok d => (db ++ [d], 201)
    | Except.error _ => (db, 500)

/-- Successful schema creation implies the stored amount is at least 500. -/
lemma donationCreate_amount {doc : DonationDoc} {newId : Nat} {d : Donation}
    (h : donationCreate doc newId = Except.ok d) : 500 ≤ d.amount := by
  unfold donationCreate at h
  split at h
  · cases h
  · split at h
    · cases h
    · next a heq =>
        split at h
        · cases h
        · split at h
          · cases h
          · next h1 _ =>
              cases h
              exact Int.not_lt.mp h1

/-- C6: a successfully created donation always has amount at least 500; a
POST /api/donations request whose amount is below 500 is answered with the
validation error 400 and leaves the stored collection unchanged; and after
any creation, every stored donation either was already stored or has
amount at least 500 — through the HTTP route and the socket event alike. -/
theorem donation_amount_lower_bound :
    (∀ (doc : DonationDoc) (newId : Nat) (d : Donation),
      donationCreate doc newId = Except.ok d → 500 ≤ d.amount) ∧
    (∀ (authUserId : Nat) (b : CreateBody) (db : List Donation) (newId : Nat) (a : Int),
      b.amount = some a → a < 500 → postDonation authUserId b db newId = (db, 400)) ∧
    (∀ (authUserId : Nat) (b : CreateBody) (db : List Donation) (newId : Nat)
      (d : Donation), d ∈ (postDonation authUserId b db newId).1 →
        d ∈ db ∨ 500 ≤ d.amount) ∧
    (∀ (conn : SocketConn) (data : CreatePayload) (db : List Donation) (newId : Nat)
      (d : Donation), d ∈ (handleDonationCreate conn data db newId).1 →
        d ∈ db ∨ 500 ≤ d.amount) := by
  refine ⟨fun doc newId d h => donationCreate_amount h, ?_, ?_, ?_⟩
  · intro authUserId b db newId a ha hlt
    have hv : validateCreateBody b = some "Minimum donation amount is $500" := by
      simp only [validateCreateBody, ha, if_pos hlt]
    simp only [postDonation, hv]
  · intro authUserId b db newId d hd
    unfold postDonation at hd
    cases hv : validateCreateBody b with
    | some msg =>
        rw [hv] at hd
        exact Or.inl hd
    | none =>
        rw [hv] at hd
        cases hc : donationCreate
            ⟨some authUserId, b.amount, some Status.pending, b.message, b.is_anonymous⟩ newId with
        | ok e =>
            rw [hc] at hd
            simp only at hd
            rcases List.mem_append.mp hd with h1 | h1
            · exact Or.inl h1
            · rcases List.mem_singleton.mp h1 with rfl
              exact Or.inr (donationCreate_amount hc)
        | error msg =>
            rw [hc] at hd
            exact Or.inl hd
  · intro conn data db newId d hd
    unfold handleDonationCreate at hd
    cases hc : donationCreate (socketCreateDoc conn.userId data) newId with
    | ok e =>
        rw [hc] at hd
        simp only at hd
        rcases List.mem_append.mp hd with h1 | h1
        · exact Or.inl h1
        · rcases List.mem_singleton.mp h1 with rfl
          exact Or.inr (donationCreate_amount hc)
    | error msg =>
        rw [hc] at hd
        exact Or.inl hd

/-- Witness for C6: an authenticated request with amount 100 is rejected
with 400 against an empty collection, which stays empty. -/
theorem donation_amount_lower_bound_witness :
    (⟨some 100, none, none⟩ : CreateBody).amount = some 100 ∧ (100 : Int) < 500 ∧
    postDonation 1 ⟨some 100, none, none⟩ [] 0 = ([], 400) :=
  ⟨rfl, by decide,
   donation_amount_lower_bound.2.1 1 ⟨some 100, none, none⟩ [] 0 100 rfl (by decide)⟩

/-! ## Store connection: connectDB in the database config -/

/-- Outcome of the store connection procedure. -/
inductive ConnectOutcome
  | connected
  | degraded
  | exitedNonZero
deriving DecidableEq, Repr

/-- Observable result of connectDB: attempts made, seconds waited between
attempts, and the outcome. -/
structure ConnectResult where
  attempts : Nat
  waits : List Nat
  outcome : ConnectOutcome
deriving DecidableEq, Repr

/-- The retry loop of connectDB: while retryCount is below maxRetries try
to connect; on failure increment retryCount and, only when another try
remains, wait retryCount times two seconds. The fuel argument counts the
remaining loop iterations and starts at maxRetries. Returns whether a try
succeeded, the number of tries made, and the waits in order. -/
def connectLoop (ok : Nat → Bool) (maxRetries : Nat) :
    Nat → Nat → Bool × Nat × List Nat
  | 0, _ => (false, 0, [])
  | fuel + 1, retryCount =>
    if ok retryCount then (true, 1, [])
    else
      if retryCount + 1 < maxRetries then
        let r := connectLoop ok maxRetries fuel (retryCount + 1)
        (r.1, r.2.1 + 1, (retryCount + 1) * 2 :: r.2.2)
      else (false, 1, [])

/-- A connection string is well formed when it starts with one of the two
accepted scheme prefixes (the startsWith test, on the character lists). -/
def mongoURIFormatOk (uri : String) : Bool :=
  "mongodb://".data.isPrefixOf uri.data || "mongodb+srv://".data.isPrefixOf uri.data

/-- connectDB: exit non-zero when the connection string is absent or
malformed; otherwise run the retry loop with maxRetries three; when every
try fails, continue degraded outside production and exit non-zero in
production. The ok oracle tells whether the i-th try reaches the store. -/
def connectDB (mongoURI : Option String) (ok : Nat → Bool) (production : Bool) :
    ConnectResult :=
  match mongoURI with
  | none => ⟨0, [], ConnectOutcome.exitedNonZero⟩
  | some uri =>
    if mongoURIFormatOk uri then
      let r := connectLoop ok 3 3 0
      ⟨r.2.1, r.2.2,
       if r.1 then ConnectOutcome.connected
       else if production then ConnectOutcome.exitedNonZero
       else ConnectOutcome.degraded⟩
    else ⟨0, [], ConnectOutcome.exitedNonZero⟩

/-- C8 counterexample: when every try fails, the loop makes three attempts
but waits only twice, two seconds then four; no six-second wait ever
happens, because after the third failure the loop exits without waiting. -/
theorem connect_retry_waits_counterexample :
    connectDB (some "mongodb://localhost:27017/bang-donation") (fun _ => false) false =
      ⟨3, [2, 4], ConnectOutcome.degraded⟩ ∧
    ([2, 4] : List Nat) ≠ [2, 4, 6] := by
  refine ⟨?_, by decide⟩
  decide

/-- C8 amended: on store connection failure at startup with a well-formed
connection string, connection is retried a bounded number of times (three
attempts) with linearly increasing backoff of 2s then 4s between the
attempts (no wait follows the final failure, so a 6s backoff never
occurs); after the final failure the process continues degraded when not
in production and exits non-zero in production. -/
theorem connect_retry_bounded_backoff (uri : String) (ok : Nat → Bool)
    (production : Bool) (hu : mongoURIFormatOk uri = true)
    (hfail : ∀ i, ok i = false) :
    connectDB (some uri) ok production =
      ⟨3, [2, 4],
       if production then ConnectOutcome.exitedNonZero else ConnectOutcome.degraded⟩ := by
  have hloop : connectLoop ok 3 3 0 = (false, 3, [2, 4]) := by
    simp only [connectLoop, hfail 0, hfail 1, hfail 2]
    norm_num
  simp only [connectDB, hu, hloop, if_true, Bool.false_eq_true, if_false]

/-- Witness for the amended C8 theorem with an all-failing oracle in
production mode. -/
theorem connect_retry_bounded_backoff_witness :
    mongoURIFormatOk "mongodb://localhost:27017/bang-donation" = true ∧
    connectDB (some "mongodb://localhost:27017/bang-donation") (fun _ => false) true =
      ⟨3, [2, 4],
       if true then ConnectOutcome.exitedNonZero else ConnectOutcome.degraded⟩ :=
  ⟨by decide,
   connect_retry_bounded_backoff "mongodb://localhost:27017/bang-donation"
     (fun _ => false) true (by decide) (fun i => rfl)⟩

/-! ## Startup and the socket authentication middleware -/

/-- The environment variables consulted at startup. -/
structure Env where
  mongoURI : Option String
  jwtSecret : Option String
  production : Bool
deriving DecidableEq, Repr

/-- Observable startup outcome of the server process. -/
inductive StartupOutcome
  | exitNonZero
  | running (dbConnected : Bool)
deriving DecidableEq, Repr

/-- startServer: run connectDB, whose exit sites are the only process
exits at startup, then listen; the signing secret is never consulted. -/
def startServer (env : Env) (ok : Nat → Bool) : StartupOutcome :=
  match (connectDB env.mongoURI ok env.production).outcome with
  | ConnectOutcome.exitedNonZero => StartupOutcome.exitNonZero
  | ConnectOutcome.connected => StartupOutcome.running true
  | ConnectOutcome.degraded => StartupOutcome.running false

/-- Outcome of one socket handshake in the authentication middleware. -/
inductive HandshakeOutcome
  | reject (msg : String)
  | accept (userId : Nat)
deriving DecidableEq, Repr

/-- The socket authentication middleware: missing token rejects; missing
signing secret rejects with the configuration message; a token the jwt
oracle cannot verify rejects; a verified id without a stored user rejects;
otherwise the identity is bound. -/
def socketAuth (secret : Option String) (token : Option String)
    (verify : String → String → Option Nat) (users : List Nat) : HandshakeOutcome :=
  match token with
  | none => HandshakeOutcome.reject "Authentication error"
  | some t =>
    match secret with
    | none => HandshakeOutcome.reject "JWT_SECRET not configured"
    | some s =>
      match verify t s with
      | none => HandshakeOutcome.reject "Authentication error"
      | some uid =>
        if uid ∈ users then HandshakeOutcome.accept uid
        else HandshakeOutcome.reject "User not found"

/-- C9 counterexample: with the signing secret absent, a reachable store
and production mode, startup completes and the process runs; it does not
exit non-zero. -/
theorem missing_secret_no_exit_counterexample :
    startServer ⟨some "mongodb://localhost:27017/bang-donation", none, true⟩
        (fun _ => true) = StartupOutcome.running true ∧
    (⟨some "mongodb://localhost:27017/bang-donation", none, true⟩ : Env).jwtSecret = none ∧
    StartupOutcome.running true ≠ StartupOutcome.exitNonZero := by
  refine ⟨?_, rfl, by decide⟩
  decide

/-- C9 amended: an absent signing secret never terminates the process: the
startup outcome is independent of the secret, and the notification layer
instead rejects every socket handshake carrying a token with the
configuration error message. -/
theorem missing_secret_rejects_handshakes (env : Env) (ok : Nat → Bool)
    (verify : String → String → Option Nat) (users : List Nat) :
    startServer ⟨env.mongoURI, none, env.production⟩ ok = startServer env ok ∧
    (∀ t : String, socketAuth none (some t) verify users =
      HandshakeOutcome.reject "JWT_SECRET not configured") :=
  ⟨rfl, fun _ => rfl⟩

end BangDonation
